import Mathlib

/-!
Verification development for `switch_audio.py` (AudioSwitcher).

The script is a thin orchestration layer over external `ffmpeg`/`ffprobe`
binaries: it resolves a single MP3 audio source (explicit file, picked from a
directory, or combined from fragments), then iterates a directory of video
files, replacing each video's audio track.  The external binaries and the
filesystem are modelled as oracles passed in as function arguments; the
side-effecting steps of the script are recorded as explicit `Effect` values.

Python exceptions are modelled by `PyErr`, split into the two classes that
matter for control flow: ordinary exceptions (caught by `except Exception`)
and `SystemExit` (derived from `BaseException`, hence NOT caught by
`except Exception`).
-/

namespace AudioSwitcher

/-- Python errors, split by whether an `except Exception` handler catches
them: `exception` covers ordinary exceptions (`RuntimeError`,
`subprocess.CalledProcessError`, `OSError`, ...), while `systemExit` covers
`SystemExit`, which derives from `BaseException` and escapes
`except Exception`. -/
inductive PyErr where
  | exception (msg : String)
  | systemExit (msg : String)
deriving DecidableEq, Repr

/-- Side effects the script performs, recorded in order. -/
inductive Effect where
  | mkdirParents (dir : String)
  | writeManifest (fragments : List String)
  | runConcat (fragments : List String) (out : String)
  | transcode (video audio out codec : String) (short forceY : Bool)
  | replace (tmp dst : String)
deriving DecidableEq, Repr

/-- Index of the last '.' in a list of characters, if any. -/
def lastDotIdx : List Char → Option Nat
  | [] => none
  | c :: cs =>
    match lastDotIdx cs with
    | some i => some (i + 1)
    | none => if c = '.' then some 0 else none

/-- `pathlib` split of a final path component into stem and suffix: the
suffix starts at the last dot, provided that dot is neither the first nor
the last character of the name (`0 < i < len(name) - 1` in CPython's
`pathlib`). -/
def pySplitExt (name : String) : String × String :=
  let cs := name.data
  match lastDotIdx cs with
  | some i =>
    if 0 < i ∧ i + 1 < cs.length then (String.mk (cs.take i), String.mk (cs.drop i))
    else (name, "")
  | none => (name, "")

/-- `pathlib.PurePath.stem` of a final path component. -/
def pyStem (name : String) : String := (pySplitExt name).fst

/-- `pathlib.PurePath.suffix` of a final path component. -/
def pySuffix (name : String) : String := (pySplitExt name).snd

/-- Whether `p` ends with the literal extension `ext` (case-sensitive), as
the glob pattern `*.mp3` matches. -/
def hasExt (ext : String) (p : String) : Bool := ext.data.isSuffixOf p.data

/-- ASCII lower-casing of one character (extensions are ASCII, so this is
what Python `str.lower()` does on them). -/
def lowerChar (c : Char) : Char :=
  if 'A' ≤ c ∧ c ≤ 'Z' then Char.ofNat (c.toNat + 32) else c

/-- Python `str.lower()` on an ASCII string such as a path suffix. -/
def strLower (s : String) : String := String.mk (s.data.map lowerChar)

/-- `VIDEO_EXTS` from src/switch_audio.py line 11. -/
def VIDEO_EXTS : List String := [".mp4", ".mov", ".mkv", ".avi", ".m4v", ".webm"]

/-- Insert a string into a sorted list (used to model Python `sorted`). -/
def insertStr (x : String) : List String → List String
  | [] => [x]
  | y :: ys => if x ≤ y then x :: y :: ys else y :: insertStr x ys

/-- Insertion sort on strings, modelling Python `sorted` over file names. -/
def sortStrings : List String → List String
  | [] => []
  | x :: xs => insertStr x (sortStrings xs)

/-- `format_duration` helper: a field zero-padded to two digits, as Python
`f"{n:02d}"` for non-negative `n`. -/
def pad2 (n : ℕ) : String :=
  if n < 10 then "0" ++ toString n else toString n

/-- Python 3 `round` to an integer: round half to even. -/
def pyRound (q : ℚ) : ℤ :=
  if q - (Int.floor q : ℚ) < 1/2 then Int.floor q
  else if 1/2 < q - (Int.floor q : ℚ) then Int.floor q + 1
  else if Even (Int.floor q) then Int.floor q else Int.floor q + 1

/-- `format_duration` from src/switch_audio.py lines 42-47, with the Python
float argument embedded as an exact rational (the claims only concern
non-negative inputs, where `Int.toNat` is faithful). -/
def format_duration (seconds : ℚ) : String :=
  pad2 ((pyRound seconds).toNat / 3600) ++ ":" ++
    pad2 (((pyRound seconds).toNat % 3600) / 60) ++ ":" ++
    pad2 ((pyRound seconds).toNat % 60)

/-- Line 239 of src/switch_audio.py: request shortest-stream truncation iff
the audio is more than 0.01 s longer than the video (durations embedded as
exact rationals). -/
def use_shortest (audioDuration videoDuration : ℚ) : Bool :=
  decide (audioDuration > videoDuration + 1/100)

/-- `build_output_path` from src/switch_audio.py lines 109-112, at the level
of the file name (the output is a sibling of the video, so the directory
part is unchanged). -/
def build_output_path (videoName : String) (sfx : String) (inPlace : Bool) : String :=
  if inPlace then pyStem videoName ++ "_tmp" ++ pySuffix videoName
  else pyStem videoName ++ sfx ++ pySuffix videoName

/-- `choose_audio_codec_for_path` from src/switch_audio.py lines 115-123. -/
def choose_audio_codec_for_path (name : String) : String :=
  let ext := strLower (pySuffix name)
  if ext = ".webm" then "opus"
  else if ext = ".mp4" ∨ ext = ".mov" ∨ ext = ".m4v" ∨ ext = ".mkv" then "aac"
  else if ext = ".avi" then "mp3"
  else "aac"

/-- The codec inference table exactly as the spec states it (§4.4): container
extension (lower-cased) to audio codec, with `aac` as the fallback. -/
def specCodecTable (ext : String) : String :=
  if ext = ".webm" then "opus"
  else if ext = ".mp4" ∨ ext = ".mov" ∨ ext = ".m4v" ∨ ext = ".mkv" then "aac"
  else if ext = ".avi" then "mp3"
  else "aac"

/-- The CLI configuration fields relevant to per-video processing. -/
structure Config where
  sfx : String
  inPlace : Bool
  overwrite : Bool
  audioCodec : Option String
deriving DecidableEq, Repr

/-- Line 245 of src/switch_audio.py: explicit override if given, otherwise
inferred from the output path. -/
def selected_audio_codec (cfg : Config) (outPath : String) : String :=
  cfg.audioCodec.getD (choose_audio_codec_for_path outPath)

/-- Outcome of one invocation of the external probing tool on a path,
together with how Python's `float` parses its stdout: the process can fail
(`subprocess.CalledProcessError`), succeed with unparseable output, or
succeed with a numeric duration. -/
inductive ProbeOutcome where
  | procError (msg : String)
  | unparseable (raw : String)
  | duration (d : ℚ)
deriving DecidableEq, Repr

/-- `ffprobe_duration` from src/switch_audio.py lines 24-39: a
`CalledProcessError` from `subprocess.check_output` propagates as an
ordinary exception, while an unparseable duration string raises
`SystemExit` (line 39). -/
def ffprobe_duration (probe : String → ProbeOutcome) (path : String) :
    Except PyErr ℚ :=
  match probe path with
  | .procError m => .error (.exception m)
  | .unparseable raw =>
      .error (.systemExit ("Could not parse duration for " ++ path ++ ": " ++ raw))
  | .duration d => .ok d

/-- Python `", ".join(...)`. -/
def joinComma : List String → String
  | [] => ""
  | [x] => x
  | x :: xs => x ++ ", " ++ joinComma xs

/-- The audio-pick modes accepted by `--audio-pick` (argparse `choices`). -/
inductive PickMode where
  | latest
  | oldest
  | byName
deriving DecidableEq, Repr

/-- Python `max(files, key=key)`: first element attaining the maximal key
(later elements replace the running best only on strict increase). -/
def pyMaxBy (key : String → ℚ) : List String → Option String
  | [] => none
  | x :: xs => some (xs.foldl (fun b y => if key y > key b then y else b) x)

/-- Python `min(files, key=key)`: first element attaining the minimal key. -/
def pyMinBy (key : String → ℚ) : List String → Option String
  | [] => none
  | x :: xs => some (xs.foldl (fun b y => if key y < key b then y else b) x)

/-- The glob `audio_dir.glob("*.mp3")` of line 51, over the directory's file
listing: the names ending in the literal `.mp3`. -/
def pickFiles (listing : List String) : List String :=
  listing.filter (hasExt ".mp3")

/-- The match scan of line 68: files whose full name or stem equals the
requested name. -/
def pickMatches (files : List String) (name : String) : List String :=
  files.filter (fun p => p = name ∨ pyStem p = name)

/-- Lines 61-65: the candidate path tried first under `--audio-pick name`;
when the given name's suffix is not `.mp3` (case-insensitively) and the
`.mp3`-suffixed sibling exists, that sibling replaces the candidate
(`Path.with_suffix(".mp3")` is stem plus the new suffix). -/
def nameCandidate (existsF : String → Bool) (n : String) : String :=
  if strLower (pySuffix n) ≠ ".mp3" ∧ existsF (pyStem n ++ ".mp3") then
    pyStem n ++ ".mp3"
  else n

/-- `pick_mp3` from src/switch_audio.py lines 50-75.  The audio directory is
modelled by `listing` (names of its regular files, as globbed), `existsF`
(the `.exists()` oracle on names inside the directory) and `mtime`
(`st_mtime`).  `name = none` or `name = some ""` model the falsy values of
`if not name`.  Returns `none` when the directory holds no MP3 (line 53). -/
def pick_mp3 (listing : List String) (existsF : String → Bool)
    (mtime : String → ℚ) (mode : PickMode) (name : Option String)
    (audioDirName : String) : Except PyErr (Option String) :=
  if (pickFiles listing).isEmpty then .ok none
  else
    match mode with
    | .latest => .ok (pyMaxBy mtime (pickFiles listing))
    | .oldest => .ok (pyMinBy mtime (pickFiles listing))
    | .byName =>
      match name with
      | none => .error (.systemExit "--audio-name is required when using --audio-pick name")
      | some n =>
        if n = "" then
          .error (.systemExit "--audio-name is required when using --audio-pick name")
        else if existsF (nameCandidate existsF n) then .ok (some (nameCandidate existsF n))
        else
          match pickMatches (pickFiles listing) n with
          | [] => .error (.systemExit ("No MP3 found in " ++ audioDirName ++ " named " ++ n))
          | [m] => .ok (some m)
          | ms => .error (.systemExit ("Multiple matches for --audio-name " ++ n ++ ": " ++ joinComma ms))

/-- `combine_mp3s` from src/switch_audio.py lines 78-106.  The input
directory is modelled by its file listing; `concatRes` is the outcome of the
external concat invocation (`none` = success, `some m` = the
`CalledProcessError` message raised by `run` with `check=True`).  Returns
the effects performed, in order, alongside the Python result. -/
def combine_mp3s (inputListing : List String) (inputDirName : String)
    (outputParent : String) (outputPath : String) (concatRes : Option String) :
    List Effect × Except PyErr Unit :=
  let files := sortStrings (inputListing.filter (hasExt ".mp3"))
  if files.isEmpty then
    ([], .error (.systemExit ("No MP3 files found in " ++ inputDirName)))
  else
    let effs := [Effect.mkdirParents outputParent, Effect.writeManifest files,
                 Effect.runConcat files outputPath]
    match concatRes with
    | none => (effs, .ok ())
    | some m => (effs, .error (.exception m))

/-- The body of the per-video `try` block, src/switch_audio.py lines 238-273:
probe the video, decide truncation, compute the output path, reject an
existing output without `--overwrite` (`RuntimeError`, an ordinary
exception), choose the codec, invoke the external transcode (`transcode`
oracle: `none` = success, `some m` = `CalledProcessError` message), and in
in-place mode replace the original only after that invocation succeeded.
Returns the effects performed, in order, alongside the Python result. -/
def process_one_video (probe : String → ProbeOutcome)
    (transcode : String → Option String) (audioDuration : ℚ) (cfg : Config)
    (existsF : String → Bool) (audioPath : String) (videoPath : String) :
    List Effect × Except PyErr Unit :=
  match ffprobe_duration probe videoPath with
  | .error e => ([], .error e)
  | .ok videoDuration =>
    let short := use_shortest audioDuration videoDuration
    let outputPath := build_output_path videoPath cfg.sfx cfg.inPlace
    if existsF outputPath && !cfg.overwrite then
      ([], .error (.exception ("Output exists: " ++ outputPath ++ " (use --overwrite)")))
    else
      let codec := selected_audio_codec cfg outputPath
      let tEff := Effect.transcode videoPath audioPath outputPath codec short
        (cfg.overwrite || cfg.inPlace)
      match transcode outputPath with
      | none =>
        if cfg.inPlace then ([tEff, Effect.replace outputPath videoPath], .ok ())
        else ([tEff], .ok ())
      | some m => ([tEff], .error (.exception m))

/-- The outcome of the batch loop: which videos the loop entered, the
effects performed, the recorded per-video failures (path and message, as
appended on line 275), and — when a `SystemExit` escaped the
`except Exception` handler — the fatal message that aborted the loop. -/
structure BatchTrace where
  attempted : List String
  effects : List Effect
  failures : List (String × String)
  fatal : Option String
deriving DecidableEq, Repr

/-- The `for video_path in videos` loop of src/switch_audio.py lines
236-276: an ordinary exception from the step is caught and recorded and the
loop continues; a `SystemExit` is NOT caught by `except Exception` and
aborts the loop immediately. -/
def process_videos (step : String → List Effect × Except PyErr Unit) :
    List String → BatchTrace
  | [] => ⟨[], [], [], none⟩
  | v :: rest =>
    let r := step v
    match r.2 with
    | .ok _ =>
      let t := process_videos step rest
      ⟨v :: t.attempted, r.1 ++ t.effects, t.failures, t.fatal⟩
    | .error (.exception m) =>
      let t := process_videos step rest
      ⟨v :: t.attempted, r.1 ++ t.effects, (v, m) :: t.failures, t.fatal⟩
    | .error (.systemExit m) => ⟨[v], r.1, [], some m⟩

/-- Line 229: candidate videos are the sorted directory entries whose
suffix, lower-cased, is in the fixed allow-list. -/
def eligible_videos (listing : List String) : List String :=
  (sortStrings listing).filter (fun p => VIDEO_EXTS.contains (strLower (pySuffix p)))

/-- src/switch_audio.py lines 229-276: the batch stage of `main`.  With zero
eligible videos the run aborts with `SystemExit` (line 231) before probing
the audio duration and before entering the loop; otherwise the shared audio
duration is probed once and the loop runs. -/
def main_batch (videoDirListing : List String) (videoDirName : String)
    (probe : String → ProbeOutcome) (audioPath : String) (cfg : Config)
    (existsF : String → Bool) (transcode : String → Option String) :
    Except PyErr BatchTrace :=
  let videos := eligible_videos videoDirListing
  if videos.isEmpty then
    .error (.systemExit ("No video files found in " ++ videoDirName))
  else
    match ffprobe_duration probe audioPath with
    | .error e => .error e
    | .ok audioDuration =>
      .ok (process_videos
        (process_one_video probe transcode audioDuration cfg existsF audioPath) videos)

/-- Lines 278-279: after the loop, a non-empty failure list raises
`SystemExit` with the failure count (non-zero termination). -/
def batch_exit (t : BatchTrace) : Except PyErr Unit :=
  if t.failures.isEmpty then .ok ()
  else .error (.systemExit (toString t.failures.length ++ " video(s) failed"))

/-- Simple path join for a file name inside a directory. -/
def joinPath (d n : String) : String := d ++ "/" ++ n

/-- src/switch_audio.py lines 212-223: resolution of the single audio
source.  An explicit `--audio-file` short-circuits everything; otherwise
`pick_mp3` runs, and `--combine` (or an empty pick) triggers
`combine_mp3s` into `audio_dir/<ts>.mp3`.  In every branch the final
`audio_path.exists()` check (line 222) applies, via the `existsPath`
oracle.  Returns the combine effects performed alongside the result. -/
def resolve_audio_source (audioFile : Option String) (combineFlag : Bool)
    (audioDirName : String) (audioListing : List String)
    (existsInAudio : String → Bool) (mtime : String → ℚ) (mode : PickMode)
    (audioName : Option String) (inputDirName : String)
    (inputListing : List String) (ts : String) (concatRes : Option String)
    (existsPath : String → Bool) : List Effect × Except PyErr String :=
  let finish := fun (effs : List Effect) (p : String) =>
    if existsPath p then (effs, Except.ok p)
    else (effs, Except.error (PyErr.systemExit ("Audio file not found: " ++ p)))
  match audioFile with
  | some p => finish [] p
  | none =>
    match pick_mp3 audioListing existsInAudio mtime mode audioName audioDirName with
    | .error e => ([], .error e)
    | .ok none =>
      let out := joinPath audioDirName (ts ++ ".mp3")
      match combine_mp3s inputListing inputDirName audioDirName out concatRes with
      | (effs, .error e) => (effs, .error e)
      | (effs, .ok _) => finish effs out
    | .ok (some n) =>
      if combineFlag then
        let out := joinPath audioDirName (ts ++ ".mp3")
        match combine_mp3s inputListing inputDirName audioDirName out concatRes with
        | (effs, .error e) => (effs, .error e)
        | (effs, .ok _) => finish effs out
      else finish [] (joinPath audioDirName n)

lemma mem_insertStr {a x : String} : ∀ {l : List String},
    a ∈ insertStr x l ↔ a = x ∨ a ∈ l := by
  intro l
  induction l with
  | nil => simp [insertStr]
  | cons y ys ih =>
    unfold insertStr
    split
    · simp [List.mem_cons]
    · simp only [List.mem_cons, ih]
      tauto

lemma mem_sortStrings {a : String} : ∀ {l : List String},
    a ∈ sortStrings l ↔ a ∈ l := by
  intro l
  induction l with
  | nil => simp [sortStrings]
  | cons x xs ih => simp [sortStrings, mem_insertStr, ih]

/-- C3: shortest-stream truncation is requested iff the audio duration
exceeds the video duration by more than 0.01 s; 10.005 s vs 10.00 s does
not trigger it and 10.02 s vs 10.00 s does (durations are embedded as
exact rationals, 10.005 = 2001/200 and 10.02 = 501/50). -/
theorem c3_truncation_threshold :
    (∀ a v : ℚ, use_shortest a v = true ↔ a > v + 1/100) ∧
    use_shortest (2001/200) 10 = false ∧ use_shortest (501/50) 10 = true := by
  refine ⟨fun a v => ?_, ?_, ?_⟩
  · simp [use_shortest]
  · simp only [use_shortest, decide_eq_false_iff_not]
    norm_num
  · simp only [use_shortest, decide_eq_true_eq]
    norm_num

/-- C6: the output path is the sibling `<stem>_tmp<ext>` in in-place mode
and `<stem><suffix><ext>` otherwise; `clip.mp4` with suffix `_dub` yields
`clip_dub.mp4` non-in-place and `clip_tmp.mp4` in-place. -/
theorem c6_output_path :
    (∀ (name sfx : String),
      build_output_path name sfx true = pyStem name ++ "_tmp" ++ pySuffix name ∧
      build_output_path name sfx false = pyStem name ++ sfx ++ pySuffix name) ∧
    build_output_path "clip.mp4" "_dub" false = "clip_dub.mp4" ∧
    build_output_path "clip.mp4" "_dub" true = "clip_tmp.mp4" :=
  ⟨fun _ _ => ⟨rfl, rfl⟩, rfl, rfl⟩

/-- C7: with no explicit codec override, the codec is inferred from the
output extension, case-insensitively, by the fixed table
`.webm→opus`, `.mp4/.mov/.m4v/.mkv→aac`, `.avi→mp3`, otherwise `aac`
(`specCodecTable` is that table transcribed from the spec). -/
theorem c7_codec_inference :
    (∀ name, choose_audio_codec_for_path name = specCodecTable (strLower (pySuffix name))) ∧
    (∀ (cfg : Config) (out : String), cfg.audioCodec = none →
      selected_audio_codec cfg out = specCodecTable (strLower (pySuffix out))) ∧
    choose_audio_codec_for_path "clip.WEBM" = "opus" ∧
    choose_audio_codec_for_path "clip.avi" = "mp3" ∧
    choose_audio_codec_for_path "clip.mkv" = "aac" ∧
    choose_audio_codec_for_path "clip.xyz" = "aac" := by
  refine ⟨fun name => rfl, fun cfg out h => ?_, rfl, rfl, rfl, rfl⟩
  simp [selected_audio_codec, h]
  rfl

/-- Witness for C7: with no override configured, the codec for a `.webm`
output is the table entry for `.webm`. -/
theorem c7_codec_inference_witness :
    (Config.mk "_newaudio" false false none).audioCodec = none ∧
    selected_audio_codec (Config.mk "_newaudio" false false none) "clip.webm" =
      specCodecTable ".webm" :=
  ⟨rfl, c7_codec_inference.2.1 (Config.mk "_newaudio" false false none) "clip.webm" rfl⟩

lemma pyRound_nearest (q : ℚ) : |(pyRound q : ℚ) - q| ≤ 1/2 := by
  have h0 : (Int.floor q : ℚ) ≤ q := Int.floor_le q
  have h1 : q < (Int.floor q : ℚ) + 1 := Int.lt_floor_add_one q
  unfold pyRound
  split_ifs with hf hg he <;> rw [abs_le] <;> constructor <;> push_cast <;> linarith

lemma pyRound_3661 : pyRound 3661 = 3661 := by
  have hf : Int.floor ((3661 : ℚ)) = 3661 := by
    rw [Int.floor_eq_iff]
    norm_num
  unfold pyRound
  rw [hf]
  norm_num

lemma pyRound_59_6 : pyRound (298/5) = 60 := by
  have hf : Int.floor ((298 : ℚ)/5) = 59 := by
    rw [Int.floor_eq_iff]
    norm_num
  unfold pyRound
  rw [hf]
  rw [if_neg (by push_cast; norm_num), if_pos (by push_cast; norm_num)]
  norm_num

/-- C8: the duration formatter rounds its argument to a nearest whole
second (distance at most 1/2, so never plain truncation) and then prints
zero-padded `HH:MM:SS`; `format(3661) = "01:01:01"` and
`format(59.6) = "00:01:00"` (59.6 = 298/5, rounded up to 60 s). -/
theorem c8_format_duration_rounds :
    (∀ q : ℚ, 0 ≤ q → |(pyRound q : ℚ) - q| ≤ 1/2) ∧
    format_duration 3661 = "01:01:01" ∧ format_duration (298/5) = "00:01:00" := by
  refine ⟨fun q _ => pyRound_nearest q, ?_, ?_⟩
  · unfold format_duration
    rw [pyRound_3661]
    rfl
  · unfold format_duration
    rw [pyRound_59_6]
    rfl

/-- Witness for C8 at the concrete input 7/2: non-negative, and the
rounded value is within half a second of it. -/
theorem c8_format_duration_witness :
    (0 : ℚ) ≤ 7/2 ∧ |(pyRound (7/2) : ℚ) - 7/2| ≤ 1/2 :=
  ⟨by norm_num, c8_format_duration_rounds.1 (7/2) (by norm_num)⟩

/-- C5: combining over an input directory with zero eligible `.mp3`
fragments fails with `SystemExit` and performs no effect at all: no parent
directory creation, no manifest, no external invocation, hence no output
file. -/
theorem c5_combine_empty_fails :
    ∀ (inputListing : List String) (inputDirName outputParent outputPath : String)
      (concatRes : Option String),
      inputListing.filter (hasExt ".mp3") = [] →
      combine_mp3s inputListing inputDirName outputParent outputPath concatRes =
        ([], .error (.systemExit ("No MP3 files found in " ++ inputDirName))) := by
  intro l d pp op cr h
  unfold combine_mp3s
  rw [h]
  rfl

/-- Witness for C5: a directory holding only `notes.txt` has zero eligible
fragments, and combining fails with no effects. -/
theorem c5_combine_empty_witness :
    (["notes.txt"].filter (hasExt ".mp3") = ([] : List String)) ∧
    combine_mp3s ["notes.txt"] "audio-input" "audio" "audio/x.mp3" none =
      ([], .error (.systemExit "No MP3 files found in audio-input")) :=
  ⟨rfl, c5_combine_empty_fails ["notes.txt"] "audio-input" "audio" "audio/x.mp3" none rfl⟩

/-- C9: an explicit `--audio-file` takes precedence over everything: the
result is independent of the combine flag, the audio directory, the pick
mode and the fragment directory, no selection or combination effect is
performed, and the given path is used after the existence check. -/
theorem c9_audio_file_precedence :
    ∀ (p : String) (combineFlag : Bool) (audioDirName : String)
      (audioListing : List String) (existsInAudio : String → Bool)
      (mtime : String → ℚ) (mode : PickMode) (audioName : Option String)
      (inputDirName : String) (inputListing : List String) (ts : String)
      (concatRes : Option String) (existsPath : String → Bool),
      resolve_audio_source (some p) combineFlag audioDirName audioListing
          existsInAudio mtime mode audioName inputDirName inputListing ts
          concatRes existsPath =
        ([], if existsPath p then .ok p
             else .error (.systemExit ("Audio file not found: " ++ p))) := by
  intro p cf adn al ea mt md an idn il ts cr ep
  unfold resolve_audio_source
  cases h : ep p <;> simp [h]

/-- C10: when the video directory's listing holds no file whose extension,
lower-cased, is in the allow-list, the run aborts with `SystemExit`
(non-zero termination) regardless of the probing and transcoding oracles —
so before any audio probe or per-video processing — instead of succeeding
with an empty batch. -/
theorem c10_no_videos_fatal :
    ∀ (videoDirListing : List String) (videoDirName : String)
      (probe : String → ProbeOutcome) (audioPath : String) (cfg : Config)
      (existsF : String → Bool) (transcode : String → Option String),
      (∀ p ∈ videoDirListing, VIDEO_EXTS.contains (strLower (pySuffix p)) = false) →
      main_batch videoDirListing videoDirName probe audioPath cfg existsF transcode =
        .error (.systemExit ("No video files found in " ++ videoDirName)) := by
  intro l dn pr ap cfg ef tr h
  have he : eligible_videos l = [] := by
    unfold eligible_videos
    rw [List.filter_eq_nil_iff]
    intro p hp
    simpa using h p (mem_sortStrings.mp hp)
  simp [main_batch, he]

/-- Witness for C10: a directory holding only `readme.txt` has zero
eligible videos and the batch stage aborts fatally. -/
theorem c10_no_videos_witness :
    main_batch ["readme.txt"] "video" (fun _ => ProbeOutcome.duration 1) "a.mp3"
        (Config.mk "_newaudio" false false none) (fun _ => false) (fun _ => none) =
      .error (.systemExit "No video files found in video") :=
  c10_no_videos_fatal ["readme.txt"] "video" (fun _ => ProbeOutcome.duration 1) "a.mp3"
    (Config.mk "_newaudio" false false none) (fun _ => false) (fun _ => none) (by decide)

/-- Counterexample to C4 as stated: with files `song.mp3` and
`song.mp3.mp3` and requested name `song.mp3`, two candidates match the
requested name (one by full filename, one by stem), yet selection succeeds
via the direct path lookup of lines 61-67 instead of failing with an error
listing both. -/
theorem c4_ambiguous_name_counterexample :
    (pickMatches (pickFiles ["song.mp3", "song.mp3.mp3"]) "song.mp3").length = 2 ∧
    pick_mp3 ["song.mp3", "song.mp3.mp3"]
        (fun s => decide (s = "song.mp3" ∨ s = "song.mp3.mp3")) (fun _ => 0)
        .byName (some "song.mp3") "audio" = .ok (some "song.mp3") :=
  ⟨rfl, rfl⟩

/-- C4 (amended): under the ByName policy, when the direct candidate
lookup fails (the candidate of lines 61-65 does not exist) and more than
one listed MP3 matches the requested name by filename or stem, selection
fails with `SystemExit` whose message lists the filenames of all matching
candidates. -/
theorem c4_ambiguous_name_amended :
    ∀ (listing : List String) (existsF : String → Bool) (mtime : String → ℚ)
      (n audioDirName : String) (a b : String) (ms : List String),
      pickFiles listing ≠ [] →
      n ≠ "" →
      existsF (nameCandidate existsF n) = false →
      pickMatches (pickFiles listing) n = a :: b :: ms →
      pick_mp3 listing existsF mtime .byName (some n) audioDirName =
        .error (.systemExit ("Multiple matches for --audio-name " ++ n ++ ": " ++
          joinComma (a :: b :: ms))) := by
  intro l ef mt n adn a b ms hne hn hc hm
  have hfe : (pickFiles l).isEmpty = false := by
    cases hp : pickFiles l
    · exact absurd hp hne
    · rfl
  unfold pick_mp3
  rw [if_neg (by simp [hfe])]
  dsimp only
  rw [if_neg hn]
  rw [if_neg (by simp [hc])]
  rw [hm]

/-- Witness for C4 (amended): same two files, but the direct lookup
reports non-existence, so the ambiguity error fires and lists both. -/
theorem c4_ambiguous_name_witness :
    pick_mp3 ["song.mp3", "song.mp3.mp3"] (fun _ => false) (fun _ => 0)
        .byName (some "song.mp3") "audio" =
      .error (.systemExit
        "Multiple matches for --audio-name song.mp3: song.mp3, song.mp3.mp3") :=
  c4_ambiguous_name_amended ["song.mp3", "song.mp3.mp3"] (fun _ => false) (fun _ => 0)
    "song.mp3" "audio" "song.mp3" "song.mp3.mp3" [] (by decide) (by decide) rfl rfl

lemma process_one_video_replace_mem
    (probe : String → ProbeOutcome) (transcode : String → Option String)
    (audioDuration : ℚ) (cfg : Config) (existsF : String → Bool)
    (audioPath videoPath tmp dst : String) :
    Effect.replace tmp dst ∈
      (process_one_video probe transcode audioDuration cfg existsF
        audioPath videoPath).1 →
    transcode (build_output_path videoPath cfg.sfx cfg.inPlace) = none ∧
      tmp = build_output_path videoPath cfg.sfx cfg.inPlace ∧
      dst = videoPath ∧ cfg.inPlace = true := by
  unfold process_one_video ffprobe_duration
  cases hp : probe videoPath with
  | procError s => intro h; simp at h
  | unparseable raw => intro h; simp at h
  | duration d =>
    simp only []
    split
    · intro h; simp at h
    · cases ht : transcode (build_output_path videoPath cfg.sfx cfg.inPlace) with
      | none =>
        by_cases hip : cfg.inPlace = true
        · rw [if_pos hip]
          intro h
          simp only [List.mem_cons, List.not_mem_nil, or_false] at h
          rcases h with h | h
          · exact absurd h (by simp)
          · injection h with h2 h3
            exact ⟨rfl, h2, h3, hip⟩
        · rw [if_neg hip]
          intro h
          simp at h
      | some m => intro h; simp at h

/-- C2: in in-place mode a `replace` of the original by the temporary
output appears in the performed effects only when the external transcode
invocation on the computed output path succeeded, and when that invocation
fails no `replace` is performed at all — the original file is untouched on
the error path. -/
theorem c2_inplace_commit_after_success :
    ∀ (probe : String → ProbeOutcome) (transcode : String → Option String)
      (audioDuration : ℚ) (cfg : Config) (existsF : String → Bool)
      (audioPath videoPath : String),
      (∀ tmp dst,
        Effect.replace tmp dst ∈
          (process_one_video probe transcode audioDuration cfg existsF
            audioPath videoPath).1 →
        transcode (build_output_path videoPath cfg.sfx cfg.inPlace) = none ∧
          tmp = build_output_path videoPath cfg.sfx cfg.inPlace ∧ dst = videoPath) ∧
      (∀ m, transcode (build_output_path videoPath cfg.sfx cfg.inPlace) = some m →
        ∀ tmp dst,
          Effect.replace tmp dst ∉
            (process_one_video probe transcode audioDuration cfg existsF
              audioPath videoPath).1) := by
  intro pr tr ad cfg ef ap v
  refine ⟨fun tmp dst h => ?_, fun m hm tmp dst h => ?_⟩
  · obtain ⟨h1, h2, h3, _⟩ :=
      process_one_video_replace_mem pr tr ad cfg ef ap v tmp dst h
    exact ⟨h1, h2, h3⟩
  · obtain ⟨h1, _, _, _⟩ :=
      process_one_video_replace_mem pr tr ad cfg ef ap v tmp dst h
    rw [hm] at h1
    exact Option.noConfusion h1

/-- Witness for C2: with a failing transcode oracle, the in-place replace
of `v.mp4` by its temporary sibling is not among the performed effects. -/
theorem c2_inplace_commit_witness :
    Effect.replace "v_tmp.mp4" "v.mp4" ∉
      (process_one_video (fun _ => ProbeOutcome.duration 5) (fun _ => some "boom") 10
        (Config.mk "_x" true false none) (fun _ => false) "a.mp3" "v.mp4").1 :=
  (c2_inplace_commit_after_success (fun _ => ProbeOutcome.duration 5)
    (fun _ => some "boom") 10 (Config.mk "_x" true false none) (fun _ => false)
    "a.mp3" "v.mp4").2 "boom" rfl "v_tmp.mp4" "v.mp4"

lemma process_one_video_sysexit_probe
    (probe : String → ProbeOutcome) (transcode : String → Option String)
    (audioDuration : ℚ) (cfg : Config) (existsF : String → Bool)
    (audioPath videoPath : String) (m : String) :
    (process_one_video probe transcode audioDuration cfg existsF
        audioPath videoPath).2 = .error (.systemExit m) →
    ∃ raw, probe videoPath = .unparseable raw := by
  intro h
  unfold process_one_video ffprobe_duration at h
  cases hp : probe videoPath with
  | procError s => rw [hp] at h; simp at h
  | unparseable raw => exact ⟨raw, rfl⟩
  | duration d =>
    rw [hp] at h
    simp only [] at h
    split at h
    · simp at h
    · split at h
      · split at h <;> simp at h
      · simp at h

lemma process_videos_cons (step : String → List Effect × Except PyErr Unit)
    (v : String) (rest : List String) :
    process_videos step (v :: rest) =
      match (step v).2 with
      | .ok _ =>
        ⟨v :: (process_videos step rest).attempted,
         (step v).1 ++ (process_videos step rest).effects,
         (process_videos step rest).failures, (process_videos step rest).fatal⟩
      | .error (.exception m) =>
        ⟨v :: (process_videos step rest).attempted,
         (step v).1 ++ (process_videos step rest).effects,
         (v, m) :: (process_videos step rest).failures,
         (process_videos step rest).fatal⟩
      | .error (.systemExit m) => ⟨[v], (step v).1, [], some m⟩ := rfl

lemma process_videos_isolated
    (step : String → List Effect × Except PyErr Unit) :
    ∀ (videos : List String),
      (∀ v ∈ videos, ∀ m, (step v).2 ≠ .error (.systemExit m)) →
      (process_videos step videos).fatal = none ∧
      (process_videos step videos).attempted = videos ∧
      ∀ v ∈ videos, ∀ m, (step v).2 = .error (.exception m) →
        (v, m) ∈ (process_videos step videos).failures := by
  intro videos
  induction videos with
  | nil => intro _; exact ⟨rfl, rfl, by simp⟩
  | cons v rest ih =>
    intro h
    have hv := h v (List.mem_cons_self v rest)
    have hrest : ∀ u ∈ rest, ∀ m, (step u).2 ≠ .error (.systemExit m) :=
      fun u hu => h u (List.mem_cons_of_mem v hu)
    obtain ⟨f1, a1, m1⟩ := ih hrest
    rw [process_videos_cons]
    cases hs : (step v).2 with
    | ok u =>
      refine ⟨f1, by rw [a1], fun w hw mw hww => ?_⟩
      rcases List.mem_cons.mp hw with hwv | hwr
      · subst hwv
        rw [hww] at hs
        exact Except.noConfusion hs
      · exact m1 w hwr mw hww
    | error e =>
      cases e with
      | exception me =>
        refine ⟨f1, by rw [a1], fun w hw mw hww => ?_⟩
        rcases List.mem_cons.mp hw with hwv | hwr
        · subst hwv
          rw [hww] at hs
          have hms : mw = me := by
            injection hs with h1
            injection h1
          rw [hms]
          exact List.mem_cons_self _ _
        · exact List.mem_cons_of_mem _ (m1 w hwr mw hww)
      | systemExit me => exact absurd hs (hv me)

/-- Counterexample to C1 as stated: in a batch of two videos where the
probe of the first yields unparseable output, the resulting `SystemExit`
escapes the per-item `except Exception` handler (line 274), so the batch
aborts: the second video is never attempted and no per-item failure is
recorded for the first. -/
theorem c1_probe_sysexit_counterexample :
    process_videos (process_one_video
        (fun p => if p = "a.mp4" then ProbeOutcome.unparseable "N/A"
                  else ProbeOutcome.duration 5)
        (fun _ => none) 10 (Config.mk "_newaudio" false false none)
        (fun _ => false) "music.mp3") ["a.mp4", "b.mp4"] =
      ⟨["a.mp4"], [], [], some "Could not parse duration for a.mp4: N/A"⟩ ∧
    "b.mp4" ∉ (process_videos (process_one_video
        (fun p => if p = "a.mp4" then ProbeOutcome.unparseable "N/A"
                  else ProbeOutcome.duration 5)
        (fun _ => none) 10 (Config.mk "_newaudio" false false none)
        (fun _ => false) "music.mp3") ["a.mp4", "b.mp4"]).attempted :=
  ⟨rfl, by decide⟩

/-- C1 (amended): per-item error isolation holds for every failure raised
as an ordinary exception — including an external probing tool process
error for an individual video: it is caught, recorded with the video's
path and the causing message, and every video in the batch is still
attempted with no fatal abort.  (As stated the claim is false: an
unparseable probe output raises `SystemExit`, which escapes the handler —
see the counterexample.) -/
theorem c1_error_isolation_amended :
    ∀ (probe : String → ProbeOutcome) (transcode : String → Option String)
      (audioDuration : ℚ) (cfg : Config) (existsF : String → Bool)
      (audioPath : String) (videos : List String),
      (∀ v ∈ videos, ∀ raw, probe v ≠ .unparseable raw) →
      (process_videos (process_one_video probe transcode audioDuration cfg existsF
          audioPath) videos).fatal = none ∧
      (process_videos (process_one_video probe transcode audioDuration cfg existsF
          audioPath) videos).attempted = videos ∧
      ∀ v ∈ videos, ∀ m,
        (process_one_video probe transcode audioDuration cfg existsF
          audioPath v).2 = .error (.exception m) →
        (v, m) ∈ (process_videos (process_one_video probe transcode audioDuration cfg
          existsF audioPath) videos).failures := by
  intro pr tr ad cfg ef ap videos h
  apply process_videos_isolated
  intro v hv m hs
  obtain ⟨raw, hraw⟩ := process_one_video_sysexit_probe pr tr ad cfg ef ap v m hs
  exact h v hv raw hraw

/-- Witness for C1 (amended): in a batch of two videos where the probe of
the first fails as a process error (an ordinary exception), no fatal abort
occurs, both videos are attempted, and the first video's path and message
are recorded among the failures. -/
theorem c1_error_isolation_witness :
    (process_videos (process_one_video
        (fun p => if p = "b.mp4" then ProbeOutcome.duration 5
                  else ProbeOutcome.procError "ffprobe exploded")
        (fun _ => none) 10 (Config.mk "_newaudio" false false none)
        (fun _ => false) "music.mp3") ["a.mp4", "b.mp4"]).fatal = none ∧
    (process_videos (process_one_video
        (fun p => if p = "b.mp4" then ProbeOutcome.duration 5
                  else ProbeOutcome.procError "ffprobe exploded")
        (fun _ => none) 10 (Config.mk "_newaudio" false false none)
        (fun _ => false) "music.mp3") ["a.mp4", "b.mp4"]).attempted =
      ["a.mp4", "b.mp4"] ∧
    ("a.mp4", "ffprobe exploded") ∈ (process_videos (process_one_video
        (fun p => if p = "b.mp4" then ProbeOutcome.duration 5
                  else ProbeOutcome.procError "ffprobe exploded")
        (fun _ => none) 10 (Config.mk "_newaudio" false false none)
        (fun _ => false) "music.mp3") ["a.mp4", "b.mp4"]).failures := by
  have h : ∀ v ∈ ["a.mp4", "b.mp4"], ∀ raw,
      (fun p => if p = "b.mp4" then ProbeOutcome.duration 5
                else ProbeOutcome.procError "ffprobe exploded") v ≠
        ProbeOutcome.unparseable raw := by
    intro v hv raw
    by_cases hb : v = "b.mp4" <;> simp [hb]
  have main := c1_error_isolation_amended
    (fun p => if p = "b.mp4" then ProbeOutcome.duration 5
              else ProbeOutcome.procError "ffprobe exploded")
    (fun _ => none) 10 (Config.mk "_newaudio" false false none)
    (fun _ => false) "music.mp3" ["a.mp4", "b.mp4"] h
  exact ⟨main.1, main.2.1, main.2.2 "a.mp4" (by simp) "ffprobe exploded" rfl⟩

end AudioSwitcher
